import Mathlib

set_option linter.unusedVariables false

/-!
Verification of the protocol-abstraction layer of tinyrpc
(`src/tinyrpc/protocols/__init__.py`).

The source file contains only the abstract base classes: `RPCRequest`,
`RPCBatchRequest`, `RPCResponse`, `RPCBatchResponse`, `RPCErrorResponse`,
`RPCSuccessResponse`, `RPCProtocol` and `RPCBatchProtocol`.  Every method
body is `raise RuntimeError('Not implemented')`; the only executable
content is the class hierarchy, the class attributes (`unique_id`,
`method`, `args`, `kwargs`, `is_error`, `supports_out_of_order`) and the
uniform raising behaviour.  We embed those directly.  The concrete
protocol implementations that the spec's behavioural contract describes
are not part of the source tree, so the behavioural claims are settled
against definitions modelled from the spec's words (each such definition
is marked `Modelled from the spec:`).
-/

namespace Tinyrpc

/-- Python exceptions that appear in the source or in the spec's error
taxonomy (`RuntimeError` from the source; the `ParseError` /
`InvalidRequestError` / `UnsupportedArgumentsError` classes from
`tinyrpc.exc`, named by the spec). -/
inductive PyExc where
  | runtimeError (msg : String)
  | parseError (msg : String)
  | invalidRequestError (msg : String)
  | unsupportedArgumentsError (msg : String)
  deriving DecidableEq, Repr

/-- `ParseError`/`InvalidRequestError`-class conditions, the categorized
parse failures of the spec's error taxonomy. -/
def PyExc.isParseErrorClass : PyExc → Bool
  | .parseError _ => true
  | .invalidRequestError _ => true
  | _ => false

/-- Opaque RPC values (method results, positional arguments, ...).
The layer never inspects them, so a small concrete universe suffices. -/
inductive Value where
  | vint (n : Int)
  | vstr (s : String)
  deriving DecidableEq, Repr

/-- An error payload: the source docstrings say an error is "an exception
or a string"; the spec models this as a tagged union of a structured
exception-like value and a plain descriptive string. -/
inductive ErrValue where
  | structured (code : Int) (message : String)
  | plain (text : String)
  deriving DecidableEq, Repr

/-! ### The class hierarchy of the source file

`PyClass` enumerates the classes defined in
`src/tinyrpc/protocols/__init__.py`; `mro` is each class's method
resolution order restricted to these classes (the `list` and `object`
bases define none of the attributes of interest); `definesMethod` and
the `attr*` functions transcribe, class by class, exactly the methods
and class attributes that appear in the source. -/

inductive PyClass where
  | RPCRequest
  | RPCBatchRequest
  | RPCResponse
  | RPCBatchResponse
  | RPCErrorResponse
  | RPCSuccessResponse
  | RPCProtocol
  | RPCBatchProtocol
  deriving DecidableEq, Repr

/-- Method resolution order of each class of the source file (restricted
to the classes of the file; `list` and `object` contribute none of the
names of interest). -/
def mro : PyClass → List PyClass
  | .RPCRequest => [.RPCRequest]
  | .RPCBatchRequest => [.RPCBatchRequest, .RPCRequest]
  | .RPCResponse => [.RPCResponse]
  | .RPCBatchResponse => [.RPCBatchResponse, .RPCResponse]
  | .RPCErrorResponse => [.RPCErrorResponse, .RPCResponse]
  | .RPCSuccessResponse => [.RPCSuccessResponse, .RPCResponse]
  | .RPCProtocol => [.RPCProtocol]
  | .RPCBatchProtocol => [.RPCBatchProtocol, .RPCProtocol]

/-- The methods each class of the source file defines in its own body. -/
def definesMethod (c : PyClass) (m : String) : Bool :=
  match c with
  | .RPCRequest => ["error_respond", "respond", "serialize"].contains m
  | .RPCBatchRequest => false
  | .RPCResponse => ["serialize"].contains m
  | .RPCBatchResponse => ["create_batch_response", "serialize"].contains m
  | .RPCErrorResponse => false
  | .RPCSuccessResponse => false
  | .RPCProtocol =>
      ["create_request", "create_error_response",
       "parse_request", "parse_reply"].contains m
  | .RPCBatchProtocol => ["create_batch_request"].contains m

/-- Whether a class has a method, by Python attribute lookup along the
method resolution order. -/
def hasMethod (c : PyClass) (m : String) : Bool :=
  (mro c).any (fun b => definesMethod b m)

/-- The `is_error` class attribute, where a class body assigns it
(`RPCResponse`: `False`; `RPCErrorResponse`: `True`;
`RPCSuccessResponse`: `False`). -/
def attrIsErrorOwn : PyClass → Option Bool
  | .RPCResponse => some false
  | .RPCErrorResponse => some true
  | .RPCSuccessResponse => some false
  | _ => none

/-- `is_error` as Python attribute lookup resolves it. -/
def attrIsError (c : PyClass) : Option Bool :=
  (mro c).findSome? attrIsErrorOwn

/-- The `supports_out_of_order` class attribute
(`RPCProtocol`: `False`). -/
def attrSupportsOutOfOrderOwn : PyClass → Option Bool
  | .RPCProtocol => some false
  | _ => none

/-- `supports_out_of_order` as Python attribute lookup resolves it. -/
def attrSupportsOutOfOrder (c : PyClass) : Option Bool :=
  (mro c).findSome? attrSupportsOutOfOrderOwn

/-- The classes of the source file that are response types, i.e.
subclasses of `RPCResponse` (itself included). -/
def isResponseClass (c : PyClass) : Bool :=
  (mro c).contains PyClass.RPCResponse

/-! ### The base-class objects and their raising methods

Instances of the base classes carry only the class-attribute defaults
(`unique_id = None`, `method = None`, `args = None`, `kwargs = None`).
Every method body in the file is `raise RuntimeError('Not implemented')`,
embedded as `Except.error (PyExc.runtimeError "Not implemented")`. -/

structure RPCRequestObj where
  unique_id : Option Nat
  method : Option String
  args : Option (List Value)
  kwargs : Option (List (String × Value))
  deriving DecidableEq, Repr

/-- A fresh `RPCRequest()` instance: every attribute holds its class
default `None`. -/
def RPCRequestObj.new : RPCRequestObj :=
  { unique_id := none, method := none, args := none, kwargs := none }

structure RPCResponseObj where
  deriving DecidableEq, Repr

structure RPCProtocolObj where
  deriving DecidableEq, Repr

structure RPCBatchProtocolObj where
  deriving DecidableEq, Repr

/-- `RPCRequest.error_respond`: `raise RuntimeError('Not implemented')`. -/
def RPCRequestObj.error_respond (self : RPCRequestObj) (error : ErrValue) :
    Except PyExc (Option RPCResponseObj) :=
  .error (.runtimeError "Not implemented")

/-- `RPCRequest.respond`: `raise RuntimeError('Not implemented')`. -/
def RPCRequestObj.respond (self : RPCRequestObj) (result : Value) :
    Except PyExc (Option RPCResponseObj) :=
  .error (.runtimeError "Not implemented")

/-- `RPCRequest.serialize`: `raise RuntimeError('Not implemented')`. -/
def RPCRequestObj.serialize (self : RPCRequestObj) :
    Except PyExc String :=
  .error (.runtimeError "Not implemented")

/-- `RPCResponse.serialize`: `raise RuntimeError('Not implemented')`. -/
def RPCResponseObj.serialize (self : RPCResponseObj) :
    Except PyExc String :=
  .error (.runtimeError "Not implemented")

/-- `RPCBatchResponse.create_batch_response`:
`raise RuntimeError('Not implemented')`.  (In the source this method sits
on the batch *response* class, not the batch request class.) -/
def RPCBatchResponseObj.create_batch_response
    (self : List RPCResponseObj) :
    Except PyExc (Option (List RPCResponseObj)) :=
  .error (.runtimeError "Not implemented")

/-- `RPCBatchResponse.serialize`: `raise RuntimeError('Not implemented')`. -/
def RPCBatchResponseObj.serialize (self : List RPCResponseObj) :
    Except PyExc String :=
  .error (.runtimeError "Not implemented")

/-- `RPCProtocol.create_request`: `raise RuntimeError('Not implemented')`. -/
def RPCProtocolObj.create_request (self : RPCProtocolObj) (method : String)
    (args : Option (List Value)) (kwargs : Option (List (String × Value)))
    (one_way : Bool) :
    Except PyExc RPCRequestObj :=
  .error (.runtimeError "Not implemented")

/-- `RPCProtocol.create_error_response`:
`raise RuntimeError('Not implemented')`. -/
def RPCProtocolObj.create_error_response (self : RPCProtocolObj)
    (error : ErrValue) :
    Except PyExc RPCResponseObj :=
  .error (.runtimeError "Not implemented")

/-- `RPCProtocol.parse_request`: `raise RuntimeError('Not implemented')`. -/
def RPCProtocolObj.parse_request (self : RPCProtocolObj) (data : String) :
    Except PyExc RPCRequestObj :=
  .error (.runtimeError "Not implemented")

/-- `RPCProtocol.parse_reply`: `raise RuntimeError('Not implemented')`. -/
def RPCProtocolObj.parse_reply (self : RPCProtocolObj) (data : String) :
    Except PyExc RPCResponseObj :=
  .error (.runtimeError "Not implemented")

/-- `RPCBatchProtocol.create_batch_request`:
`raise RuntimeError('Not implemented')`. -/
def RPCBatchProtocolObj.create_batch_request (self : RPCBatchProtocolObj)
    (requests : Option (List RPCRequestObj)) :
    Except PyExc (List RPCRequestObj) :=
  .error (.runtimeError "Not implemented")

/-! ### A concrete protocol modelled from the spec

The behavioural contract of the spec (one-way suppression, round-trip,
batch parsing and batch-response assembly, error responses, `unique_id`
discipline) is stated about concrete protocol implementations, which are
not part of the source tree: the source file holds only the abstract
contract.  The definitions below are therefore modelled from the spec's
words and carry a `Modelled from the spec:` marker. -/

/-- Modelled from the spec: a request of a concrete protocol (the
concrete request classes are missing from src/).  Carries the spec's
request data model: `unique_id` (optional correlation token), `method`,
optional `args`, optional `kwargs`, and the `one_way` flag fixed at
creation. -/
structure MRequest where
  unique_id : Option Nat
  method : String
  args : Option (List Value)
  kwargs : Option (List (String × Value))
  one_way : Bool
  deriving DecidableEq, Repr

/-- Modelled from the spec: a response of a concrete protocol (the
concrete response classes are missing from src/).  Two variants,
`success` holding `result` and `error` holding `error`, each bound to the
correlation id of the request it answers. -/
inductive MResponse where
  | success (unique_id : Option Nat) (result : Value)
  | error (unique_id : Option Nat) (error : ErrValue)
  deriving DecidableEq, Repr

/-- The `is_error` discriminant of a modelled response. -/
def MResponse.is_error : MResponse → Bool
  | .success _ _ => false
  | .error _ _ => true

/-- Modelled from the spec: `request.respond(result)` of a concrete
protocol — "builds a success response bound to the same correlation id
as the request; returns absent if the request is one-way". -/
def MRequest.respond (r : MRequest) (result : Value) : Option MResponse :=
  if r.one_way then none else some (.success r.unique_id result)

/-- Modelled from the spec: `request.error_respond(error)` of a concrete
protocol — "builds an error response; same one-way suppression rule
applies", accepting either a structured error or a plain string. -/
def MRequest.error_respond (r : MRequest) (e : ErrValue) : Option MResponse :=
  if r.one_way then none else some (.error r.unique_id e)

/-- Modelled from the spec: a concrete protocol object.
`supports_out_of_order` is its fixed capability flag; `next_id` is the
state of its `unique_id` generator (the spec permits e.g. a counter). -/
structure MProtocol where
  supports_out_of_order : Bool
  next_id : Nat
  deriving DecidableEq, Repr

/-- Modelled from the spec: `protocol.create_request(method, args,
kwargs, one_way)` — constructs a request; the correlation token is "set
only by the protocol's request factory" and is "set if and only if the
owning protocol declares supports_out_of_order = true". -/
def MProtocol.create_request (P : MProtocol) (method : String)
    (args : Option (List Value)) (kwargs : Option (List (String × Value)))
    (one_way : Bool) : MRequest :=
  { unique_id := if P.supports_out_of_order then some P.next_id else none,
    method := method, args := args, kwargs := kwargs, one_way := one_way }

/-- Modelled from the spec: `protocol.create_error_response(error)` —
"used when no valid Request could be constructed at all"; accepts an
exception-like object or a plain string and yields an `ErrorResponse`
(a non-absent response carrying the error, with no correlation id since
no request exists). -/
def MProtocol.create_error_response (P : MProtocol) (e : ErrValue) :
    Option MResponse :=
  some (.error none e)

/-- Modelled from the spec: wire data as a concrete protocol's parser
sees it — a well-formed single-request payload, a batch payload carrying
a list of element payloads, or malformed bytes. -/
inductive Wire where
  | request (unique_id : Option Nat) (method : String)
      (args : Option (List Value)) (kwargs : Option (List (String × Value)))
      (one_way : Bool)
  | batch (items : List Wire)
  | garbage (data : String)
  deriving Repr

/-- Modelled from the spec: `request.serialize()` of a concrete
protocol — a wire-ready encoding of the request, opaque to this layer. -/
def MRequest.serialize (r : MRequest) : Wire :=
  .request r.unique_id r.method r.args r.kwargs r.one_way

/-- Modelled from the spec: an element of a `BatchRequest` — "each either
a well-formed Request or a parse-error marker (an RPCError-class value)
representing an item that failed to parse". -/
inductive BatchItem where
  | req (r : MRequest)
  | errmark (e : PyExc)
  deriving DecidableEq, Repr

/-- Whether a batch element is one-way, i.e. contributes no response
slot.  A parse-error marker is resolved into an `ErrorResponse` at its
output slot, so it does expect a reply. -/
def BatchItem.one_way : BatchItem → Bool
  | .req r => r.one_way
  | .errmark _ => false

/-- Modelled from the spec: the result of `parse_request` — either a
single request or a `BatchRequest` of elements. -/
inductive ParsedRequest where
  | single (r : MRequest)
  | batch (items : List BatchItem)
  deriving DecidableEq, Repr

/-- Modelled from the spec: parsing one (non-batch) request payload.
Malformed data fails with a `ParseError`-class condition; a batch nested
where a single request is expected is an `InvalidRequestError`-class
condition. -/
def parseOne : Wire → Except PyExc MRequest
  | .request uid m a k ow =>
      .ok { unique_id := uid, method := m, args := a, kwargs := k,
            one_way := ow }
  | .batch _ => .error (.invalidRequestError "nested batch")
  | .garbage d => .error (.parseError d)

/-- Modelled from the spec: one element of a batch payload parsed
independently — a malformed element "becomes an error-marker item
standing in for a request at that position, rather than aborting the
whole batch". -/
def parseBatchItem (w : Wire) : BatchItem :=
  match parseOne w with
  | .ok r => .req r
  | .error e => .errmark e

/-- Modelled from the spec: `protocol.parse_request(data)` of a concrete
batch-capable protocol — batch payloads parse element-wise into a
`BatchRequest`; single payloads parse to a request; malformed data
"fails with a ParseError/InvalidRequestError-class condition (never a
raw crash)". -/
def MProtocol.parse_request (P : MProtocol) :
    Wire → Except PyExc ParsedRequest
  | .batch ws => .ok (.batch (ws.map parseBatchItem))
  | .request uid m a k ow =>
      match parseOne (.request uid m a k ow) with
      | .ok r => .ok (.single r)
      | .error e => .error e
  | .garbage d => .error (.parseError d)

/-- Modelled from the spec: `batch_request.create_batch_response()` —
"returns absent only when every element is one-way (no replies expected
at all); otherwise returns an empty container to be filled, one slot per
element that expects a reply, in original order".  An empty slot is
`none`. -/
def create_batch_response (items : List BatchItem) :
    Option (List (Option MResponse)) :=
  if items.all BatchItem.one_way then none
  else some (List.replicate (items.filter (fun it => !it.one_way)).length none)

/-- The reply-expecting elements of a batch, in original order. -/
def replyExpecting (items : List BatchItem) : List BatchItem :=
  items.filter (fun it => !it.one_way)

/-- Modelled from the spec: collecting one completed response into the
batch-response container — the response of the `i`-th reply-expecting
element fills slot `i`, whatever order completions arrive in. -/
def fillSlot (slots : List (Option MResponse)) (i : Nat) (resp : MResponse) :
    List (Option MResponse) :=
  slots.set i (some resp)

/-- Modelled from the spec: one handling step — the response of the
`i`-th reply-expecting element, produced by the collaborator dispatch
layer `handle`, is collected into its own slot. -/
def stepFill (handle : BatchItem → MResponse) (items : List BatchItem)
    (slots : List (Option MResponse)) (i : Nat) :
    List (Option MResponse) :=
  match (replyExpecting items)[i]? with
  | some it => fillSlot slots i (handle it)
  | none => slots

/-- Modelled from the spec: assembling a `BatchResponse` — the
reply-expecting elements are handled in an arbitrary completion order
(`order` lists their indices in completion order, `handle` is the
collaborator dispatch layer), and each completion fills its own slot of
the initially empty container. -/
def assembleBatchResponse (handle : BatchItem → MResponse)
    (items : List BatchItem) (order : List Nat) :
    List (Option MResponse) :=
  order.foldl (stepFill handle items)
    (List.replicate (replyExpecting items).length none)

/-- A sample dispatch layer used to exercise the batch-assembly
theorems on concrete inputs: a well-formed element succeeds with
`vint 0`, a parse-error marker resolves into an error response. -/
def sampleHandle : BatchItem → MResponse
  | .req r => .success r.unique_id (.vint 0)
  | .errmark _ => .error none (.plain "parse error")

/-- A sample batch: a one-way request, a reply-expecting request, and a
parse-error marker. -/
def sampleItems : List BatchItem :=
  [.req { unique_id := none, method := "notify", args := none,
          kwargs := none, one_way := true },
   .req { unique_id := some 1, method := "add",
          args := some [.vint 2, .vint 3], kwargs := none,
          one_way := false },
   .errmark (.parseError "bad element")]

/-! ### Helper lemmas for batch-response assembly -/

/-- One handling step never changes the number of slots. -/
lemma stepFill_length (handle : BatchItem → MResponse)
    (items : List BatchItem) (slots : List (Option MResponse)) (i : Nat) :
    (stepFill handle items slots i).length = slots.length := by
  unfold stepFill
  cases (replyExpecting items)[i]? with
  | none => rfl
  | some it => simp [fillSlot]

/-- Folding handling steps never changes the number of slots. -/
lemma foldl_stepFill_length (handle : BatchItem → MResponse)
    (items : List BatchItem) :
    ∀ (order : List Nat) (slots : List (Option MResponse)),
      (order.foldl (stepFill handle items) slots).length = slots.length := by
  intro order
  induction order with
  | nil => intro slots; rfl
  | cons i rest ih =>
      intro slots
      rw [List.foldl_cons, ih, stepFill_length]

/-- After handling the indices of `order` in that order, slot `j` holds
the response of the `j`-th reply-expecting element when `j` was handled,
and is untouched otherwise — whatever the completion order was. -/
lemma foldl_stepFill_getElem? (handle : BatchItem → MResponse)
    (items : List BatchItem) :
    ∀ (order : List Nat) (slots : List (Option MResponse)),
      slots.length = (replyExpecting items).length →
      ∀ j : Nat,
        (order.foldl (stepFill handle items) slots)[j]? =
          if j ∈ order ∧ j < (replyExpecting items).length then
            ((replyExpecting items)[j]?).map (fun it => some (handle it))
          else slots[j]? := by
  intro order
  induction order with
  | nil =>
      intro slots hs j
      simp
  | cons i rest ih =>
      intro slots hs j
      rw [List.foldl_cons, ih _ (by rw [stepFill_length]; exact hs)]
      by_cases h1 : j ∈ rest ∧ j < (replyExpecting items).length
      · rw [if_pos h1, if_pos ⟨List.mem_cons_of_mem _ h1.1, h1.2⟩]
      · rw [if_neg h1]
        by_cases hji : j = i
        · subst hji
          by_cases hjN : j < (replyExpecting items).length
          · have hit : (replyExpecting items)[j]? =
                some ((replyExpecting items).get ⟨j, hjN⟩) :=
              List.getElem?_eq_getElem hjN
            rw [if_pos ⟨List.mem_cons_self _ _, hjN⟩]
            simp only [stepFill, hit, fillSlot]
            rw [List.getElem?_set_eq_of_lt _ (by rw [hs]; exact hjN)]
            rfl
          · have hnone : (replyExpecting items)[j]? = none := by
              rw [List.getElem?_eq_none_iff]
              omega
            rw [if_neg (fun hc => hjN hc.2)]
            simp only [stepFill, hnone]
        · have hstep : (stepFill handle items slots i)[j]? = slots[j]? := by
            simp only [stepFill]
            cases (replyExpecting items)[i]? with
            | none => rfl
            | some it =>
                simp only [fillSlot]
                exact List.getElem?_set_ne (fun h => hji h.symm)
          rw [hstep, if_neg
            (fun hc => h1 ⟨(List.mem_cons.mp hc.1).resolve_left hji, hc.2⟩)]

/-! ### The claims -/

/-- C1: the claim says the batch-request type provides
`create_batch_response()`.  In the source it does not: neither
`RPCBatchRequest` nor any class in its method resolution order defines
`create_batch_response`; the method sits on `RPCBatchResponse` (whose own
docstring nevertheless speaks of "responding to this request"), and even
there it only raises `RuntimeError('Not implemented')`. -/
theorem claim1_create_batch_response_misplaced :
    hasMethod PyClass.RPCBatchRequest "create_batch_response" = false ∧
    definesMethod PyClass.RPCBatchResponse "create_batch_response" = true ∧
    RPCBatchResponseObj.create_batch_response [] =
      .error (.runtimeError "Not implemented") :=
  ⟨rfl, rfl, rfl⟩

/-- C2: `is_error` is a variant discriminant — the `RPCErrorResponse`
class attribute is `True`, the `RPCSuccessResponse` one is `False`, and
among the response classes of the source file exactly
`RPCErrorResponse` resolves `is_error` to `True`. -/
theorem claim2_is_error_discriminant :
    attrIsError PyClass.RPCErrorResponse = some true ∧
    attrIsError PyClass.RPCSuccessResponse = some false ∧
    ∀ c : PyClass, isResponseClass c = true →
      (attrIsError c = some true ↔ c = PyClass.RPCErrorResponse) := by
  refine ⟨rfl, rfl, ?_⟩
  intro c h
  cases c <;> revert h <;> decide

/-- C2 witness: the inherited lookup on `RPCBatchResponse` (which defines
no `is_error` of its own) does not yield `True`. -/
theorem claim2_witness :
    isResponseClass PyClass.RPCBatchResponse = true ∧
    (attrIsError PyClass.RPCBatchResponse = some true ↔
      PyClass.RPCBatchResponse = PyClass.RPCErrorResponse) :=
  ⟨rfl, claim2_is_error_discriminant.2.2 PyClass.RPCBatchResponse rfl⟩

/-- C3: a request created with `one_way = true` yields no response from
`respond` and no response from `error_respond`, for every result value
and every error value. -/
theorem claim3_one_way_suppression (r : MRequest) (h : r.one_way = true)
    (x : Value) (e : ErrValue) :
    r.respond x = none ∧ r.error_respond e = none := by
  constructor <;> simp [MRequest.respond, MRequest.error_respond, h]

/-- C3 witness: a concrete one-way request created through the protocol
factory answers neither a result nor an error. -/
theorem claim3_witness :
    ((MProtocol.mk false 0).create_request "notify" none none true).respond
        (.vint 5) = none ∧
    ((MProtocol.mk false 0).create_request "notify" none none
        true).error_respond (.plain "boom") = none :=
  claim3_one_way_suppression
    ((MProtocol.mk false 0).create_request "notify" none none true)
    rfl (.vint 5) (.plain "boom")

/-- C4: for any dispatch layer and any completion order that is a
permutation of the reply-expecting positions, the assembled batch
response has one slot per reply-expecting element of the originating
batch request, and slot `j` holds the response of the `j`-th
reply-expecting element — original order, regardless of processing
order. -/
theorem claim4_batch_response_order (handle : BatchItem → MResponse)
    (items : List BatchItem) (order : List Nat)
    (hperm : order.Perm (List.range (replyExpecting items).length)) :
    (assembleBatchResponse handle items order).length =
      (replyExpecting items).length ∧
    ∀ j : Nat, j < (replyExpecting items).length →
      (assembleBatchResponse handle items order)[j]? =
        ((replyExpecting items)[j]?).map (fun it => some (handle it)) := by
  constructor
  · unfold assembleBatchResponse
    rw [foldl_stepFill_length, List.length_replicate]
  · intro j hj
    unfold assembleBatchResponse
    rw [foldl_stepFill_getElem? handle items order _
      (List.length_replicate _ _) j]
    have hmem : j ∈ order := by
      rw [hperm.mem_iff, List.mem_range]
      exact hj
    rw [if_pos ⟨hmem, hj⟩]

/-- C4 witness: the sample batch has two reply-expecting elements; handled
in the shuffled order `[1, 0]`, the assembled response still pairs slot 0
with the reply-expecting request and slot 1 with the error marker. -/
theorem claim4_witness :
    (assembleBatchResponse sampleHandle sampleItems [1, 0]).length =
      (replyExpecting sampleItems).length ∧
    (assembleBatchResponse sampleHandle sampleItems [1, 0])[0]? =
      ((replyExpecting sampleItems)[0]?).map
        (fun it => some (sampleHandle it)) ∧
    (assembleBatchResponse sampleHandle sampleItems [1, 0])[1]? =
      ((replyExpecting sampleItems)[1]?).map
        (fun it => some (sampleHandle it)) := by
  have h := claim4_batch_response_order sampleHandle sampleItems [1, 0]
    (by decide)
  exact ⟨h.1, h.2 0 (by decide), h.2 1 (by decide)⟩

/-- C5: parsing a batch payload never fails as a whole; it parses every
element independently and in place, and an element whose own parse fails
becomes an error-marker item at that element's position. -/
theorem claim5_batch_parse_independent (P : MProtocol) (ws : List Wire) :
    ∃ items : List BatchItem,
      P.parse_request (.batch ws) = .ok (.batch items) ∧
      items.length = ws.length ∧
      (∀ (i : Nat) (w : Wire), ws[i]? = some w →
        items[i]? = some (parseBatchItem w)) ∧
      (∀ (i : Nat) (w : Wire) (e : PyExc), ws[i]? = some w →
        parseOne w = .error e → items[i]? = some (.errmark e)) := by
  refine ⟨ws.map parseBatchItem, rfl, List.length_map _ _, ?_, ?_⟩
  · intro i w hw
    rw [List.getElem?_map, hw]
    rfl
  · intro i w e hw he
    rw [List.getElem?_map, hw]
    simp [parseBatchItem, he]

/-- C5 witness: a two-element batch with one malformed element parses as
a whole, and the malformed element stands as an error marker at its own
position. -/
theorem claim5_witness :
    ∃ items : List BatchItem,
      (MProtocol.mk false 0).parse_request
          (.batch [Wire.request none "add" (some [.vint 2, .vint 3])
            none false, Wire.garbage "bad element"]) =
        .ok (.batch items) ∧
      items[1]? = some (.errmark (.parseError "bad element")) := by
  obtain ⟨items, h1, h2, h3, h4⟩ := claim5_batch_parse_independent
    (MProtocol.mk false 0)
    [Wire.request none "add" (some [.vint 2, .vint 3]) none false,
     Wire.garbage "bad element"]
  exact ⟨items, h1, h4 1 (Wire.garbage "bad element")
    (.parseError "bad element") rfl rfl⟩

/-- C6: whenever `parse_request` fails, the failure is a
`ParseError`/`InvalidRequestError`-class condition — and, the parser
being a total function, it never fails in an uncategorized way. -/
theorem claim6_parse_error_class (P : MProtocol) (w : Wire) (e : PyExc)
    (h : P.parse_request w = .error e) :
    e.isParseErrorClass = true := by
  cases w with
  | request uid m a k ow => simp [MProtocol.parse_request, parseOne] at h
  | batch ws => simp [MProtocol.parse_request] at h
  | garbage d =>
      simp [MProtocol.parse_request] at h
      subst h
      rfl

/-- C6 witness: parsing garbage fails and the condition is
parse-error-class. -/
theorem claim6_witness :
    (MProtocol.mk false 0).parse_request (.garbage "not valid data") =
      .error (.parseError "not valid data") ∧
    (PyExc.parseError "not valid data").isParseErrorClass = true :=
  ⟨rfl, claim6_parse_error_class (MProtocol.mk false 0)
    (.garbage "not valid data") (.parseError "not valid data") rfl⟩

/-- C7: round-trip — a request built by `create_request`, serialized and
fed back through `parse_request`, parses to a request with the same
`method`, `args` and `kwargs`, and (when the protocol supports
out-of-order replies) the same `unique_id`. -/
theorem claim7_roundtrip (P : MProtocol) (m : String)
    (a : Option (List Value)) (k : Option (List (String × Value)))
    (ow : Bool) :
    ∃ r : MRequest,
      P.parse_request ((P.create_request m a k ow).serialize) =
        .ok (.single r) ∧
      r.method = m ∧ r.args = a ∧ r.kwargs = k ∧
      (P.supports_out_of_order = true →
        r.unique_id = (P.create_request m a k ow).unique_id) :=
  ⟨P.create_request m a k ow, rfl, rfl, rfl, rfl, fun _ => rfl⟩

/-- C7 witness: the round-trip at a concrete out-of-order protocol and a
concrete request. -/
theorem claim7_witness :
    ∃ r : MRequest,
      (MProtocol.mk true 7).parse_request
          (((MProtocol.mk true 7).create_request "add"
            (some [.vint 2, .vint 3]) none false).serialize) =
        .ok (.single r) ∧
      r.method = "add" ∧ r.args = some [.vint 2, .vint 3] ∧
      r.kwargs = none ∧
      ((MProtocol.mk true 7).supports_out_of_order = true →
        r.unique_id = ((MProtocol.mk true 7).create_request "add"
          (some [.vint 2, .vint 3]) none false).unique_id) :=
  claim7_roundtrip (MProtocol.mk true 7) "add"
    (some [.vint 2, .vint 3]) none false

/-- C8: `create_error_response` yields a non-absent error response for
every error value, structured or plain string. -/
theorem claim8_create_error_response (P : MProtocol) (e : ErrValue) :
    ∃ resp : MResponse,
      P.create_error_response e = some resp ∧ resp.is_error = true :=
  ⟨.error none e, rfl, rfl⟩

/-- C9: a request factory sets `unique_id` exactly when the protocol
declares `supports_out_of_order`; and in the source's base classes the
defaults are `supports_out_of_order = False` on `RPCProtocol` and
`unique_id = None` on a fresh `RPCRequest`. -/
theorem claim9_unique_id_iff_out_of_order :
    (∀ (P : MProtocol) (m : String) (a : Option (List Value))
        (k : Option (List (String × Value))) (ow : Bool),
      (P.create_request m a k ow).unique_id.isSome =
        P.supports_out_of_order) ∧
    attrSupportsOutOfOrder PyClass.RPCProtocol = some false ∧
    attrSupportsOutOfOrder PyClass.RPCBatchProtocol = some false ∧
    RPCRequestObj.new.unique_id = none := by
  refine ⟨?_, rfl, rfl, rfl⟩
  intro P m a k ow
  by_cases h : P.supports_out_of_order <;>
    simp [MProtocol.create_request, h]

/-- C10: every operation of the base classes —
`RPCRequest.error_respond`, `RPCRequest.respond`,
`RPCRequest.serialize`, `RPCResponse.serialize`,
`RPCProtocol.create_request`, `RPCProtocol.create_error_response`,
`RPCProtocol.parse_request`, `RPCProtocol.parse_reply` and
`RPCBatchProtocol.create_batch_request` — raises
`RuntimeError('Not implemented')` on every input. -/
theorem claim10_base_methods_raise :
    (∀ self error, RPCRequestObj.error_respond self error =
      .error (.runtimeError "Not implemented")) ∧
    (∀ self result, RPCRequestObj.respond self result =
      .error (.runtimeError "Not implemented")) ∧
    (∀ self, RPCRequestObj.serialize self =
      .error (.runtimeError "Not implemented")) ∧
    (∀ self, RPCResponseObj.serialize self =
      .error (.runtimeError "Not implemented")) ∧
    (∀ self method args kwargs one_way,
      RPCProtocolObj.create_request self method args kwargs one_way =
        .error (.runtimeError "Not implemented")) ∧
    (∀ self error, RPCProtocolObj.create_error_response self error =
      .error (.runtimeError "Not implemented")) ∧
    (∀ self data, RPCProtocolObj.parse_request self data =
      .error (.runtimeError "Not implemented")) ∧
    (∀ self data, RPCProtocolObj.parse_reply self data =
      .error (.runtimeError "Not implemented")) ∧
    (∀ self requests, RPCBatchProtocolObj.create_batch_request
      self requests = .error (.runtimeError "Not implemented")) :=
  ⟨fun _ _ => rfl, fun _ _ => rfl, fun _ => rfl, fun _ => rfl,
   fun _ _ _ _ _ => rfl, fun _ _ => rfl, fun _ _ => rfl, fun _ _ => rfl,
   fun _ _ => rfl⟩

end Tinyrpc
